import Mathlib

/-!
Shallow embedding of the ptnet guest driver (src/LINUX/ptnet/ptnet.c):
the CSB-synchronised TX/RX ring datapaths, the virtio-net header codec,
the peer-state pull (ptnet_sync_tail) and the registration entry point
(ptnet_nm_register_common).  Machine integers are modelled as Nat with
explicit truncation (`% 2^w`) where the C stores into a fixed-width field.
-/

/-! ## Constants from the kernel / netmap / virtio headers -/

/-- NS_MOREFRAG slot flag (net/netmap.h). -/
def NS_MOREFRAG : Nat := 0x20

/-- NETDEV_TX_OK return value (netdevice.h). -/
def NETDEV_TX_OK : Nat := 0

/-- CHECKSUM_PARTIAL value of skb->ip_summed (skbuff.h). -/
def CHECKSUM_PARTIAL : Nat := 3

/-- CHECKSUM_UNNECESSARY value of skb->ip_summed (skbuff.h). -/
def CHECKSUM_UNNECESSARY : Nat := 1

/-- CHECKSUM_NONE: ip_summed of a freshly allocated skb (skbuff.h). -/
def CHECKSUM_NONE : Nat := 0

/-- SKB_GSO_TCPV4 = 1 << 0 (skbuff.h). -/
def SKB_GSO_TCPV4 : Nat := 1

/-- SKB_GSO_UDP = 1 << 1 (skbuff.h). -/
def SKB_GSO_UDP : Nat := 2

/-- SKB_GSO_DODGY = 1 << 2 (skbuff.h). -/
def SKB_GSO_DODGY : Nat := 4

/-- SKB_GSO_TCP_ECN = 1 << 3 (skbuff.h). -/
def SKB_GSO_TCP_ECN : Nat := 8

/-- SKB_GSO_TCPV6 = 1 << 4 (skbuff.h). -/
def SKB_GSO_TCPV6 : Nat := 16

/-- VIRTIO_NET_HDR_F_NEEDS_CSUM (virtio_net.h). -/
def VIRTIO_NET_HDR_F_NEEDS_CSUM : Nat := 1

/-- VIRTIO_NET_HDR_F_DATA_VALID (virtio_net.h). -/
def VIRTIO_NET_HDR_F_DATA_VALID : Nat := 2

/-- VIRTIO_NET_HDR_GSO_NONE (virtio_net.h). -/
def VIRTIO_NET_HDR_GSO_NONE : Nat := 0

/-- VIRTIO_NET_HDR_GSO_TCPV4 (virtio_net.h). -/
def VIRTIO_NET_HDR_GSO_TCPV4 : Nat := 1

/-- VIRTIO_NET_HDR_GSO_UDP (virtio_net.h). -/
def VIRTIO_NET_HDR_GSO_UDP : Nat := 3

/-- VIRTIO_NET_HDR_GSO_TCPV6 (virtio_net.h). -/
def VIRTIO_NET_HDR_GSO_TCPV6 : Nat := 4

/-- VIRTIO_NET_HDR_GSO_ECN (virtio_net.h). -/
def VIRTIO_NET_HDR_GSO_ECN : Nat := 0x80

/-- sizeof(struct virtio_net_hdr_v1) = 12 bytes. -/
def vnetHdrLen : Nat := 12

/-- NAF_FORCE_RECLAIM sync flag requested on a TX kick (netmap_kern.h). -/
def NAF_FORCE_RECLAIM : Nat := 2

/-- NAF_FORCE_READ sync flag requested on an RX kick (netmap_kern.h). -/
def NAF_FORCE_READ : Nat := 1

/-- NKR_NETMAP_ON kring mode value (netmap_kern.h). -/
def NKR_NETMAP_ON : Nat := 1

/-- NKR_NETMAP_OFF kring mode value (netmap_kern.h). -/
def NKR_NETMAP_OFF : Nat := 0

/-- NAF_NETMAP_ON adapter flag bit (netmap_kern.h). -/
def NAF_NETMAP_ON : Nat := 16

/-- NET_PARAVIRT_PTCTL_REGIF control opcode (netmap_virt.h). -/
def NET_PARAVIRT_PTCTL_REGIF : Nat := 1

/-- NET_PARAVIRT_PTCTL_UNREGIF control opcode (netmap_virt.h). -/
def NET_PARAVIRT_PTCTL_UNREGIF : Nat := 2

/-! ## The virtio-net header record (struct virtio_net_hdr_v1) -/

/-- struct virtio_net_hdr_v1: the Packet Header Record written at the start
of the first slot when the VNET_HDR feature is on.  Field widths: flags and
gsoType are u8, the rest are u16. -/
structure VirtioNetHdr where
  flags : Nat
  gsoType : Nat
  hdrLen : Nat
  gsoSize : Nat
  csumStart : Nat
  csumOffset : Nat
  numBuffers : Nat
deriving DecidableEq, Repr

/-- The outbound packet as ptnet_start_xmit sees it: linear bytes
(skb->data, length skb_headlen), page fragments, and the offload metadata
consulted when building the virtio-net header. -/
structure Skb where
  data : List Nat
  frags : List (List Nat)
  ipSummed : Nat
  csumStartOff : Nat
  csumOffset : Nat
  gsoType : Nat
  gsoSize : Nat
  xmitMore : Bool
deriving DecidableEq, Repr

/-- skb->len: total packet length (linear part plus all fragments). -/
def Skb.len (skb : Skb) : Nat :=
  skb.data.length + (skb.frags.map List.length).sum

/-- ptnet_start_xmit lines 162-198: build the virtio-net header from the
outbound skb's offload metadata.  The source tests
`skb_shinfo(skb)->gso_size & SKB_GSO_*` (not gso_type) when choosing the
virtio gso type, and when none of the three tests fires `vh->gso_type` is
left unassigned; `stale` models the stale byte found in the slot buffer in
that case.  `skb_is_gso` is `gso_size != 0`. -/
def buildVnetHdr (skb : Skb) (stale : Nat) : VirtioNetHdr :=
  let flags := if skb.ipSummed = CHECKSUM_PARTIAL then VIRTIO_NET_HDR_F_NEEDS_CSUM else 0
  let cs := if skb.ipSummed = CHECKSUM_PARTIAL then skb.csumStartOff % 65536 else 0
  let co := if skb.ipSummed = CHECKSUM_PARTIAL then skb.csumOffset % 65536 else 0
  if skb.gsoSize ≠ 0 then
    let gt :=
      if skb.gsoSize &&& SKB_GSO_TCPV4 ≠ 0 then VIRTIO_NET_HDR_GSO_TCPV4
      else if skb.gsoSize &&& SKB_GSO_UDP ≠ 0 then VIRTIO_NET_HDR_GSO_UDP
      else if skb.gsoSize &&& SKB_GSO_TCPV6 ≠ 0 then VIRTIO_NET_HDR_GSO_TCPV6
      else stale % 256
    let gt := if skb.gsoSize &&& SKB_GSO_TCP_ECN ≠ 0 then gt ||| VIRTIO_NET_HDR_GSO_ECN else gt
    { flags := flags, gsoType := gt, hdrLen := skb.data.length % 65536,
      gsoSize := skb.gsoSize % 65536, csumStart := cs, csumOffset := co, numBuffers := 0 }
  else
    { flags := flags, gsoType := VIRTIO_NET_HDR_GSO_NONE, hdrLen := 0,
      gsoSize := 0, csumStart := cs, csumOffset := co, numBuffers := 0 }

/-! ## RX side: per-slot processing (ptnet_rx_poll loop body) -/

/-- One completed RX ring slot: the slot record (len, flags) plus the
contents of its netmap buffer, split into the header record region and the
payload bytes that follow it (when the VNET_HDR feature is off the header
region is not present and `bytes` is the whole buffer). -/
structure RxSlot where
  len : Nat
  flags : Nat
  hdr : VirtioNetHdr
  bytes : List Nat
deriving DecidableEq, Repr

/-- The inbound packet object handed upward by the RX path, with the
checksum/segmentation metadata the loop reconstructs. -/
structure RxSkb where
  payload : List Nat
  len : Nat
  ipSummed : Nat
  csumStart : Nat
  csumOffset : Nat
  gsoType : Nat
  gsoSize : Nat
deriving DecidableEq, Repr

/-- skb_partial_csum_set (skbuff.h): succeeds iff start and offset fit in
the linear part, i.e. `start <= headlen` and `start + off <= headlen - 2`
in int arithmetic. -/
def partialCsumOk (headlen start off : Nat) : Prop :=
  start ≤ headlen ∧ start + off + 2 ≤ headlen

instance (headlen start off : Nat) : Decidable (partialCsumOk headlen start off) :=
  inferInstanceAs (Decidable (And _ _))

/-- ptnet_rx_poll lines 467-490: apply the header record's segmentation
metadata to the inbound skb.  `&&& 0x7f` is the u8 evaluation of
`gso_type & ~VIRTIO_NET_HDR_GSO_ECN`. -/
def rxApplyGso (haveVnetHdr : Bool) (vh : VirtioNetHdr) (skb : RxSkb) : RxSkb :=
  if haveVnetHdr = true ∧ vh.gsoType ≠ VIRTIO_NET_HDR_GSO_NONE then
    let base :=
      if vh.gsoType &&& 0x7f = VIRTIO_NET_HDR_GSO_TCPV4 then SKB_GSO_TCPV4
      else if vh.gsoType &&& 0x7f = VIRTIO_NET_HDR_GSO_UDP then SKB_GSO_UDP
      else if vh.gsoType &&& 0x7f = VIRTIO_NET_HDR_GSO_TCPV6 then SKB_GSO_TCPV6
      else 0
    let t := if vh.gsoType &&& VIRTIO_NET_HDR_GSO_ECN ≠ 0 then base ||| SKB_GSO_TCP_ECN else base
    { skb with gsoType := t ||| SKB_GSO_DODGY, gsoSize := vh.gsoSize }
  else
    skb

/-- ptnet_rx_poll lines 428-492, one iteration after a successful skb
allocation: strip the header record when the feature is on, copy the
payload, and rebuild checksum and segmentation metadata.  `none` is the
checksum-set failure path (skb freed, work counted, packet not
delivered). -/
def rxProcessSlot (haveVnetHdr : Bool) (slot : RxSlot) : Option RxSkb :=
  let len := if haveVnetHdr then slot.len - vnetHdrLen else slot.len
  let vh := slot.hdr
  let skb0 : RxSkb :=
    { payload := slot.bytes.take len, len := len, ipSummed := CHECKSUM_NONE,
      csumStart := 0, csumOffset := 0, gsoType := 0, gsoSize := 0 }
  if haveVnetHdr = true ∧ vh.flags &&& VIRTIO_NET_HDR_F_NEEDS_CSUM ≠ 0 then
    if partialCsumOk len vh.csumStart vh.csumOffset then
      some (rxApplyGso haveVnetHdr vh
        { skb0 with ipSummed := CHECKSUM_PARTIAL,
                    csumStart := vh.csumStart, csumOffset := vh.csumOffset })
    else
      none
  else if haveVnetHdr = true ∧ vh.flags &&& VIRTIO_NET_HDR_F_DATA_VALID ≠ 0 then
    some (rxApplyGso haveVnetHdr vh { skb0 with ipSummed := CHECKSUM_UNNECESSARY })
  else
    some (rxApplyGso haveVnetHdr vh skb0)

/-- Claim C2, failing input: a TCPv4 segmentation request with gso_size
1448 and ECN off, carrying a partial checksum at start 34, offset 16. -/
def c2FailingSkb : Skb :=
  { data := List.replicate 100 0, frags := [], ipSummed := CHECKSUM_PARTIAL,
    csumStartOff := 34, csumOffset := 16, gsoType := SKB_GSO_TCPV4,
    gsoSize := 1448, xmitMore := false }

/-- The RX slot carrying the header record that ptnet_start_xmit encodes
for `c2FailingSkb` (stale buffer byte 0). -/
def c2FailingSlot : RxSlot :=
  { len := vnetHdrLen + 100, flags := 0, hdr := buildVnetHdr c2FailingSkb 0,
    bytes := List.replicate 100 0 }

/-- Claim C2: encoding then decoding the Packet Header Record does NOT
recover the segmentation metadata.  For a TCPv4 packet with gso_size 1448
(ECN off), the encoder chooses the virtio gso type by testing `gso_size`
(not `gso_type`) against the SKB_GSO_* masks: no type matches, the stale
buffer byte is kept, and bit 3 of gso_size spuriously sets GSO_ECN; the
decoder then yields SKB_GSO_TCP_ECN | SKB_GSO_DODGY instead of
SKB_GSO_TCPV4.  The checksum fields do round-trip on this input. -/
theorem vnetHdr_roundtrip_gso_bug :
    (buildVnetHdr c2FailingSkb 0).gsoType = VIRTIO_NET_HDR_GSO_ECN ∧
    rxProcessSlot true c2FailingSlot =
      some { payload := List.replicate 100 0, len := 100,
             ipSummed := CHECKSUM_PARTIAL, csumStart := 34, csumOffset := 16,
             gsoType := SKB_GSO_TCP_ECN ||| SKB_GSO_DODGY, gsoSize := 1448 } ∧
    SKB_GSO_TCP_ECN ||| SKB_GSO_DODGY ≠ c2FailingSkb.gsoType := by
  decide

/-! ## TX path (ptnet_start_xmit) -/

/-- nm_next(i, lim): ring index advance, wrapping at lim = nslots - 1. -/
def nmNext (i lim : Nat) : Nat :=
  if i = lim then 0 else i + 1

/-- `nmNextIter lim h n`: the ring index n advances after h. -/
def nmNextIter (lim h : Nat) : Nat → Nat
  | 0 => h
  | n + 1 => nmNext (nmNextIter lim h n) lim

/-- One finalized write of a TX ring slot record: the slot index and the
len/flags stored into it. -/
structure SlotWrite where
  idx : Nat
  len : Nat
  flags : Nat
deriving DecidableEq, Repr

/-- State threaded through the ptnet_start_xmit copy loops: the producer
cursor (ring->head, mirrored by ring->cur), the write offset inside the
current slot buffer (nmbuf_bytes), the payload bytes accumulated in the
current slot buffer, and the slot records finalized so far. -/
structure TxCopyState where
  head : Nat
  nb : Nat
  slotBytes : List Nat
  written : List SlotWrite
deriving DecidableEq, Repr

/-- The copy loop of ptnet_start_xmit (lines 205-228, repeated verbatim for
each page fragment at lines 239-262): copy `min(remaining, buf_size -
nmbuf_bytes)` bytes into the current slot buffer; if payload remains,
finalize the slot with NS_MOREFRAG, advance head/cur and start a fresh
slot.  `fuel` bounds the iterations; callers pass `2 * data.length + 2`,
which is never exhausted when `0 < bufSize` (the loop makes byte progress
on every iteration except immediately after entering with a full slot). -/
def txCopyGo (bufSize lim : Nat) : Nat → List Nat → TxCopyState → TxCopyState
  | 0, _, st => st
  | fuel + 1, data, st =>
    let copy := min data.length (bufSize - st.nb)
    let st1 : TxCopyState :=
      { st with slotBytes := st.slotBytes ++ data.take copy, nb := st.nb + copy }
    let rest := data.drop copy
    if rest.length = 0 then st1
    else
      txCopyGo bufSize lim fuel rest
        { head := nmNext st1.head lim, nb := 0, slotBytes := [],
          written := st1.written ++ [⟨st1.head, st1.nb, NS_MOREFRAG⟩] }

/-- Copy one contiguous byte run (the linear part, or one page fragment)
into the ring, continuing in the current slot. -/
def txCopyFrag (bufSize lim : Nat) (data : List Nat) (st : TxCopyState) : TxCopyState :=
  txCopyGo bufSize lim (2 * data.length + 2) data st

/-- Everything observable that one ptnet_start_xmit call does. -/
structure TxResult where
  ret : Nat
  skbFreed : Nat
  slotWrites : List SlotWrite
  vnetHdrWritten : Option VirtioNetHdr
  head : Nat
  cur : Nat
  tail : Nat
  hwcur : Nat
  hwtail : Nat
  published : Option (Nat × Nat)
  txKicks : Nat
  syncFlagsWrites : List Nat
  queueStopCalls : Nat
  queueStartCalls : Nat
  queueStoppedFinal : Bool
  guestNeedTxkickWrites : List Nat
  doubleCheckPulls : Nat
  txBytesDelta : Nat
  txPacketsDelta : Nat
  txDroppedDelta : Nat
deriving DecidableEq, Repr

/-- The host-published side of one pt_ring in the CSB, as observed by one
ptnet_sync_tail pull (ptnetmap_guest_read_kring_csb copies hwcur/hwtail). -/
structure PeerView where
  hwcur : Nat
  hwtail : Nat
deriving DecidableEq, Repr

/-- ptnet_start_xmit lines 265-304, after the copy loops: finalize the last
slot (no flag), advance head/cur past it, publish cur/head to the CSB, kick
the host if it asked and no batching is pending, and if the ring is now
full stop the qdisc queue, arm guest_need_txkick, re-pull peer state once
(the double check) and resume if space reappeared. -/
def txCommit (lim : Nat) (st : TxCopyState) (vh : Option VirtioNetHdr)
    (tail1 : Nat) (csb1 csb2 : PeerView) (hostNeedTxkick : Bool)
    (skb : Skb) : TxResult :=
  let writes := st.written ++ [⟨st.head, st.nb, 0⟩]
  let head1 := nmNext st.head lim
  let kick := hostNeedTxkick && !skb.xmitMore
  let base : TxResult :=
    { ret := NETDEV_TX_OK, skbFreed := 1, slotWrites := writes,
      vnetHdrWritten := vh, head := head1, cur := head1, tail := tail1,
      hwcur := csb1.hwcur, hwtail := csb1.hwtail,
      published := some (head1, head1),
      txKicks := if kick then 1 else 0,
      syncFlagsWrites := if kick then [NAF_FORCE_RECLAIM] else [],
      queueStopCalls := 0, queueStartCalls := 0, queueStoppedFinal := false,
      guestNeedTxkickWrites := [], doubleCheckPulls := 0,
      txBytesDelta := skb.len, txPacketsDelta := 1, txDroppedDelta := 0 }
  if head1 = tail1 then
    if head1 = csb2.hwtail then
      { base with tail := csb2.hwtail, hwcur := csb2.hwcur, hwtail := csb2.hwtail,
                  queueStopCalls := 1, queueStoppedFinal := true,
                  guestNeedTxkickWrites := [1], doubleCheckPulls := 1 }
    else
      { base with tail := csb2.hwtail, hwcur := csb2.hwcur, hwtail := csb2.hwtail,
                  queueStopCalls := 1, queueStartCalls := 1, queueStoppedFinal := false,
                  guestNeedTxkickWrites := [1, 0], doubleCheckPulls := 1 }
  else base

/-- ptnet_start_xmit (lines 122-305).  Inputs: ring geometry (lim =
nkr_num_slots - 1, bufSize = ring->nr_buf_size), the VNET_HDR feature bit,
the stale byte read where gso_type is left unassigned, the outbound skb,
the producer cursors at entry, the two CSB states observed by the entry
pull and by the double-check pull, and the host_need_txkick hint. -/
def ptnet_start_xmit (lim bufSize : Nat) (vnetHdr : Bool) (stale : Nat)
    (skb : Skb) (head0 cur0 : Nat) (csb1 csb2 : PeerView)
    (hostNeedTxkick : Bool) : TxResult :=
  let tail1 := csb1.hwtail
  if head0 = tail1 then
    { ret := NETDEV_TX_OK, skbFreed := 1, slotWrites := [], vnetHdrWritten := none,
      head := head0, cur := cur0, tail := tail1,
      hwcur := csb1.hwcur, hwtail := csb1.hwtail, published := none,
      txKicks := 0, syncFlagsWrites := [], queueStopCalls := 0,
      queueStartCalls := 0, queueStoppedFinal := false,
      guestNeedTxkickWrites := [], doubleCheckPulls := 0,
      txBytesDelta := 0, txPacketsDelta := 0, txDroppedDelta := 0 }
  else
    let vh := if vnetHdr then some (buildVnetHdr skb stale) else none
    let nb0 := if vnetHdr then vnetHdrLen else 0
    let st0 : TxCopyState := { head := head0, nb := nb0, slotBytes := [], written := [] }
    let st1 := (skb.data :: skb.frags).foldl (fun st d => txCopyFrag bufSize lim d st) st0
    txCommit lim st1 vh tail1 csb1 csb2 hostNeedTxkick skb

/-! ## TX lemmas -/

theorem nmNextIter_shift (lim h n : Nat) :
    nmNextIter lim (nmNext h lim) n = nmNextIter lim h (n + 1) := by
  induction n with
  | zero => rfl
  | succ n ih => simp only [nmNextIter, ih]

theorem txCommit_head (lim : Nat) (st : TxCopyState) (vh : Option VirtioNetHdr)
    (tail1 : Nat) (csb1 csb2 : PeerView) (hk : Bool) (skb : Skb) :
    (txCommit lim st vh tail1 csb1 csb2 hk skb).head = nmNext st.head lim := by
  simp only [txCommit]
  split <;> (try split) <;> rfl

theorem txCommit_cur (lim : Nat) (st : TxCopyState) (vh : Option VirtioNetHdr)
    (tail1 : Nat) (csb1 csb2 : PeerView) (hk : Bool) (skb : Skb) :
    (txCommit lim st vh tail1 csb1 csb2 hk skb).cur = nmNext st.head lim := by
  simp only [txCommit]
  split <;> (try split) <;> rfl

theorem txCommit_slotWrites (lim : Nat) (st : TxCopyState) (vh : Option VirtioNetHdr)
    (tail1 : Nat) (csb1 csb2 : PeerView) (hk : Bool) (skb : Skb) :
    (txCommit lim st vh tail1 csb1 csb2 hk skb).slotWrites =
      st.written ++ [⟨st.head, st.nb, 0⟩] := by
  simp only [txCommit]
  split <;> (try split) <;> rfl

theorem txCommit_ret_freed (lim : Nat) (st : TxCopyState) (vh : Option VirtioNetHdr)
    (tail1 : Nat) (csb1 csb2 : PeerView) (hk : Bool) (skb : Skb) :
    (txCommit lim st vh tail1 csb1 csb2 hk skb).ret = NETDEV_TX_OK ∧
    (txCommit lim st vh tail1 csb1 csb2 hk skb).skbFreed = 1 := by
  constructor <;> (simp only [txCommit]; split <;> (try split) <;> rfl)

/-- Closed form of the ptnet_start_xmit copy loop on one contiguous run of
`k * bufSize` bytes entering a fresh slot: it finalizes `k - 1` full slots
flagged NS_MOREFRAG at consecutive ring indices and leaves the last
bufSize bytes pending in the current slot. -/
theorem txCopyGo_exact (bufSize lim : Nat) (hB : 0 < bufSize) :
    ∀ k : Nat, 1 ≤ k → ∀ (fuel : Nat) (data : List Nat) (sh : Nat)
      (ssb : List Nat) (sw : List SlotWrite),
      data.length = k * bufSize → k * bufSize + 1 ≤ fuel →
      ((txCopyGo bufSize lim fuel data ⟨sh, 0, ssb, sw⟩).written.map
          (fun w => (w.idx, w.len, w.flags)) =
        sw.map (fun w => (w.idx, w.len, w.flags)) ++
          (List.range (k - 1)).map
            (fun i => (nmNextIter lim sh i, bufSize, NS_MOREFRAG))) ∧
      (txCopyGo bufSize lim fuel data ⟨sh, 0, ssb, sw⟩).head = nmNextIter lim sh (k - 1) ∧
      (txCopyGo bufSize lim fuel data ⟨sh, 0, ssb, sw⟩).nb = bufSize := by
  intro k hk
  induction k, hk using Nat.le_induction with
  | base =>
    intro fuel data sh ssb sw hlen hfuel
    cases fuel with
    | zero => omega
    | succ f =>
      have hlen1 : data.length = bufSize := by rw [hlen, one_mul]
      simp only [txCopyGo]
      rw [Nat.sub_zero, hlen1, Nat.min_self]
      have hdrop : (data.drop bufSize).length = 0 := by
        rw [List.length_drop, hlen1, Nat.sub_self]
      rw [if_pos hdrop]
      refine ⟨by simp, rfl, by simp⟩
  | succ k hk ih =>
    intro fuel data sh ssb sw hlen hfuel
    cases fuel with
    | zero => omega
    | succ f =>
      have hBle : bufSize ≤ data.length := by
        rw [hlen]
        exact Nat.le_mul_of_pos_left bufSize (by omega)
      simp only [txCopyGo]
      rw [Nat.sub_zero, Nat.min_eq_right hBle]
      have hdrop : (data.drop bufSize).length = k * bufSize := by
        rw [List.length_drop, hlen, Nat.succ_mul, Nat.add_sub_cancel]
      have hne : ¬ (data.drop bufSize).length = 0 := by
        rw [hdrop]
        exact Nat.mul_ne_zero (by omega) (by omega)
      rw [if_neg hne]
      have hfuel2 : k * bufSize + 1 ≤ f := by
        rw [Nat.succ_mul] at hfuel
        omega
      obtain ⟨ihw, ihh, ihn⟩ := ih f (data.drop bufSize) (nmNext sh lim) []
        (sw ++ [⟨sh, 0 + bufSize, NS_MOREFRAG⟩]) hdrop hfuel2
      refine ⟨?_, ?_, ihn⟩
      · rw [ihw, List.map_append]
        have hk1 : k - 1 + 1 = k := by omega
        have hrange : (List.range (k + 1 - 1)).map
            (fun i => (nmNextIter lim sh i, bufSize, NS_MOREFRAG)) =
            (nmNextIter lim sh 0, bufSize, NS_MOREFRAG) ::
              (List.range (k - 1)).map
                (fun i => (nmNextIter lim sh (i + 1), bufSize, NS_MOREFRAG)) := by
          rw [Nat.add_sub_cancel]
          conv_lhs => rw [← hk1]
          rw [List.range_succ_eq_map, List.map_cons, List.map_map]
          rfl
        rw [hrange]
        have hfun : (fun i => (nmNextIter lim sh (i + 1), bufSize, NS_MOREFRAG)) =
            (fun i => (nmNextIter lim (nmNext sh lim) i, bufSize, NS_MOREFRAG)) := by
          funext i
          rw [nmNextIter_shift]
        rw [hfun]
        simp [nmNextIter, List.append_assoc]
      · rw [ihh, nmNextIter_shift, Nat.add_sub_cancel]
        congr 1
        omega

/-! ## TX claims -/

/-- A plain packet with only linear payload and no offload metadata. -/
def mkSkb (d : List Nat) : Skb :=
  { data := d, frags := [], ipSummed := 0, csumStartOff := 0, csumOffset := 0,
    gsoType := 0, gsoSize := 0, xmitMore := false }

/-- Claim C3: ptnet_start_xmit checks occupancy (head == tail) only once,
at entry; the copy loops advance head without re-checking.  Concrete
overrun: ring of 4 slots (lim 3), bufSize 1, head 0 and tail 2 after the
entry pull, so only slots 0 and 1 are free; a 3-byte packet nevertheless
writes slots 0, 1 AND 2 — slot 2 is the consumer-owned slot at tail, not
yet released — and head (3) ends up past tail (2) with no stop. -/
theorem tx_overrun_without_occupancy_recheck :
    (ptnet_start_xmit 3 1 false 0 (mkSkb [7, 7, 7]) 0 0 ⟨0, 2⟩ ⟨0, 2⟩
        false).slotWrites.map SlotWrite.idx = [0, 1, 2] ∧
    2 ∈ (ptnet_start_xmit 3 1 false 0 (mkSkb [7, 7, 7]) 0 0 ⟨0, 2⟩ ⟨0, 2⟩
        false).slotWrites.map SlotWrite.idx ∧
    (ptnet_start_xmit 3 1 false 0 (mkSkb [7, 7, 7]) 0 0 ⟨0, 2⟩ ⟨0, 2⟩
        false).tail = 2 ∧
    (ptnet_start_xmit 3 1 false 0 (mkSkb [7, 7, 7]) 0 0 ⟨0, 2⟩ ⟨0, 2⟩
        false).head = 3 := by
  decide

/-- Claim C4, counterexample: on the ring-full entry path the code does
NOT record a drop counter and does NOT return a distinguished
backpressure value.  The full-ring run returns NETDEV_TX_OK — the very
same value a successful run returns — and leaves every statistics counter
(tx_dropped, tx_packets, tx_bytes) untouched; only a rate-limited log line
is emitted. -/
theorem tx_ringfull_no_counter_no_distinct_result :
    (ptnet_start_xmit 3 1 false 0 (mkSkb [7]) 0 0 ⟨0, 0⟩ ⟨0, 0⟩ false).ret
      = NETDEV_TX_OK ∧
    (ptnet_start_xmit 3 1 false 0 (mkSkb [7]) 0 0 ⟨0, 2⟩ ⟨0, 2⟩ false).ret
      = NETDEV_TX_OK ∧
    (ptnet_start_xmit 3 1 false 0 (mkSkb [7]) 0 0 ⟨0, 0⟩ ⟨0, 0⟩ false).ret =
      (ptnet_start_xmit 3 1 false 0 (mkSkb [7]) 0 0 ⟨0, 2⟩ ⟨0, 2⟩ false).ret ∧
    (ptnet_start_xmit 3 1 false 0 (mkSkb [7]) 0 0 ⟨0, 0⟩ ⟨0, 0⟩
        false).txDroppedDelta = 0 ∧
    (ptnet_start_xmit 3 1 false 0 (mkSkb [7]) 0 0 ⟨0, 0⟩ ⟨0, 0⟩
        false).txPacketsDelta = 0 ∧
    (ptnet_start_xmit 3 1 false 0 (mkSkb [7]) 0 0 ⟨0, 0⟩ ⟨0, 0⟩
        false).txBytesDelta = 0 := by
  decide

/-- Claim C4 (amended): when the ring has no free slot (head == tail after
the entry pull), ptnet_start_xmit drops the packet: it frees the skb,
writes no slot, publishes nothing, kicks nothing, updates no statistics
counter, and returns NETDEV_TX_OK — the same value as a successful
transmit, not a distinguished backpressure result. -/
theorem tx_ringfull_drop_semantics (lim bufSize : Nat) (vnetHdr : Bool)
    (stale : Nat) (skb : Skb) (head0 cur0 : Nat) (csb1 csb2 : PeerView)
    (hk : Bool) (hfull : head0 = csb1.hwtail) :
    ptnet_start_xmit lim bufSize vnetHdr stale skb head0 cur0 csb1 csb2 hk =
      { ret := NETDEV_TX_OK, skbFreed := 1, slotWrites := [],
        vnetHdrWritten := none, head := head0, cur := cur0,
        tail := csb1.hwtail, hwcur := csb1.hwcur, hwtail := csb1.hwtail,
        published := none, txKicks := 0, syncFlagsWrites := [],
        queueStopCalls := 0, queueStartCalls := 0, queueStoppedFinal := false,
        guestNeedTxkickWrites := [], doubleCheckPulls := 0,
        txBytesDelta := 0, txPacketsDelta := 0, txDroppedDelta := 0 } := by
  simp only [ptnet_start_xmit]
  rw [if_pos hfull]

/-- Witness for tx_ringfull_drop_semantics at a concrete full ring. -/
theorem tx_ringfull_drop_semantics_witness :
    (0 : Nat) = (⟨0, 0⟩ : PeerView).hwtail ∧
    ptnet_start_xmit 3 1 false 0 (mkSkb [7]) 0 5 ⟨0, 0⟩ ⟨0, 0⟩ false =
      { ret := NETDEV_TX_OK, skbFreed := 1, slotWrites := [],
        vnetHdrWritten := none, head := 0, cur := 5, tail := 0, hwcur := 0,
        hwtail := 0, published := none, txKicks := 0, syncFlagsWrites := [],
        queueStopCalls := 0, queueStartCalls := 0, queueStoppedFinal := false,
        guestNeedTxkickWrites := [], doubleCheckPulls := 0,
        txBytesDelta := 0, txPacketsDelta := 0, txDroppedDelta := 0 } :=
  ⟨rfl, tx_ringfull_drop_semantics 3 1 false 0 (mkSkb [7]) 0 5 ⟨0, 0⟩ ⟨0, 0⟩
    false rfl⟩

/-- Claim C5: with no header record (VNET_HDR off) and only linear payload
of exactly `k * bufSize` bytes (k >= 1), ptnet_start_xmit uses exactly k
slots, each holding bufSize bytes, at k consecutive ring indices; every
slot but the last carries NS_MOREFRAG and the last carries no flag; head
and cur advance one slot per split, ending k slots past the entry head.
In particular there is no trailing empty slot. -/
theorem tx_split_exact (lim bufSize k : Nat) (payload : List Nat)
    (head0 cur0 : Nat) (csb1 csb2 : PeerView) (hk : Bool)
    (hB : 0 < bufSize) (hk1 : 1 ≤ k) (hlen : payload.length = k * bufSize)
    (hroom : head0 ≠ csb1.hwtail) :
    (ptnet_start_xmit lim bufSize false 0 (mkSkb payload) head0 cur0 csb1 csb2
        hk).slotWrites.map (fun w => (w.idx, w.len, w.flags)) =
      (List.range (k - 1)).map
          (fun i => (nmNextIter lim head0 i, bufSize, NS_MOREFRAG)) ++
        [(nmNextIter lim head0 (k - 1), bufSize, 0)] ∧
    (ptnet_start_xmit lim bufSize false 0 (mkSkb payload) head0 cur0 csb1 csb2
        hk).slotWrites.length = k ∧
    (ptnet_start_xmit lim bufSize false 0 (mkSkb payload) head0 cur0 csb1 csb2
        hk).head = nmNextIter lim head0 k ∧
    (ptnet_start_xmit lim bufSize false 0 (mkSkb payload) head0 cur0 csb1 csb2
        hk).cur = nmNextIter lim head0 k := by
  have hstep : ptnet_start_xmit lim bufSize false 0 (mkSkb payload) head0 cur0
      csb1 csb2 hk =
      txCommit lim
        (txCopyGo bufSize lim (2 * payload.length + 2) payload
          ⟨head0, 0, [], []⟩)
        none csb1.hwtail csb1 csb2 hk (mkSkb payload) := by
    simp only [ptnet_start_xmit]
    rw [if_neg hroom]
    rfl
  have hfuel : k * bufSize + 1 ≤ 2 * payload.length + 2 := by
    rw [hlen]
    omega
  obtain ⟨hw, hh, hn⟩ := txCopyGo_exact bufSize lim hB k hk1
    (2 * payload.length + 2) payload head0 [] [] hlen hfuel
  have hwl : (txCopyGo bufSize lim (2 * payload.length + 2) payload
      ⟨head0, 0, [], []⟩).written.length = k - 1 := by
    have h := congrArg List.length hw
    simpa using h
  rw [hstep, txCommit_slotWrites, txCommit_head, txCommit_cur]
  have hkk : k - 1 + 1 = k := by omega
  refine ⟨?_, ?_, ?_, ?_⟩
  · rw [List.map_append, hw, hh, hn]
    simp
  · rw [List.length_append, hwl]
    simp [hkk]
  · rw [hh]
    conv_rhs => rw [← hkk]
    rfl
  · rw [hh]
    conv_rhs => rw [← hkk]
    rfl

/-- Witness for tx_split_exact: 2-byte payload, bufSize 1, two slots. -/
theorem tx_split_exact_witness :
    0 < 1 ∧ 1 ≤ 2 ∧ ([9, 9] : List Nat).length = 2 * 1 ∧ (0 : Nat) ≠ (⟨0, 3⟩ : PeerView).hwtail ∧
    ((ptnet_start_xmit 3 1 false 0 (mkSkb [9, 9]) 0 0 ⟨0, 3⟩ ⟨0, 3⟩
        false).slotWrites.map (fun w => (w.idx, w.len, w.flags)) =
        [(0, 1, NS_MOREFRAG), (1, 1, 0)] ∧
      (ptnet_start_xmit 3 1 false 0 (mkSkb [9, 9]) 0 0 ⟨0, 3⟩ ⟨0, 3⟩
        false).slotWrites.length = 2 ∧
      (ptnet_start_xmit 3 1 false 0 (mkSkb [9, 9]) 0 0 ⟨0, 3⟩ ⟨0, 3⟩
        false).head = 2 ∧
      (ptnet_start_xmit 3 1 false 0 (mkSkb [9, 9]) 0 0 ⟨0, 3⟩ ⟨0, 3⟩
        false).cur = 2) :=
  ⟨by decide, by decide, by decide, by decide,
    tx_split_exact 3 1 2 [9, 9] 0 0 ⟨0, 3⟩ ⟨0, 3⟩ false (by decide) (by decide)
      (by decide) (by decide)⟩

/-- Claim C7: whenever a transmit leaves the ring full (the advanced head
equals the tail observed at entry), ptnet_start_xmit stops the qdisc
queue, writes 1 to guest_need_txkick, and re-pulls peer state exactly
once; if the re-pulled tail shows free space it restarts the queue and
writes 0 to guest_need_txkick within the same call, otherwise the queue
stays stopped with the hint armed. -/
theorem tx_full_after_send_doublecheck (lim bufSize : Nat) (vnetHdr : Bool)
    (stale : Nat) (skb : Skb) (head0 cur0 : Nat) (csb1 csb2 : PeerView)
    (hk : Bool) (hroom : head0 ≠ csb1.hwtail)
    (hfull : (ptnet_start_xmit lim bufSize vnetHdr stale skb head0 cur0 csb1
      csb2 hk).head = csb1.hwtail) :
    (ptnet_start_xmit lim bufSize vnetHdr stale skb head0 cur0 csb1 csb2
        hk).doubleCheckPulls = 1 ∧
    (ptnet_start_xmit lim bufSize vnetHdr stale skb head0 cur0 csb1 csb2
        hk).queueStopCalls = 1 ∧
    (csb2.hwtail ≠ csb1.hwtail →
      (ptnet_start_xmit lim bufSize vnetHdr stale skb head0 cur0 csb1 csb2
          hk).guestNeedTxkickWrites = [1, 0] ∧
      (ptnet_start_xmit lim bufSize vnetHdr stale skb head0 cur0 csb1 csb2
          hk).queueStartCalls = 1 ∧
      (ptnet_start_xmit lim bufSize vnetHdr stale skb head0 cur0 csb1 csb2
          hk).queueStoppedFinal = false) ∧
    (csb2.hwtail = csb1.hwtail →
      (ptnet_start_xmit lim bufSize vnetHdr stale skb head0 cur0 csb1 csb2
          hk).guestNeedTxkickWrites = [1] ∧
      (ptnet_start_xmit lim bufSize vnetHdr stale skb head0 cur0 csb1 csb2
          hk).queueStoppedFinal = true) := by
  have hstep : ptnet_start_xmit lim bufSize vnetHdr stale skb head0 cur0 csb1
      csb2 hk =
      txCommit lim
        ((skb.data :: skb.frags).foldl
          (fun st d => txCopyFrag bufSize lim d st)
          ⟨head0, if vnetHdr then vnetHdrLen else 0, [], []⟩)
        (if vnetHdr then some (buildVnetHdr skb stale) else none)
        csb1.hwtail csb1 csb2 hk skb := by
    simp only [ptnet_start_xmit]
    rw [if_neg hroom]
  rw [hstep] at hfull ⊢
  rw [txCommit_head] at hfull
  by_cases hc : nmNext ((skb.data :: skb.frags).foldl
      (fun st d => txCopyFrag bufSize lim d st)
      ⟨head0, if vnetHdr then vnetHdrLen else 0, [], []⟩).head lim = csb2.hwtail
  · have hsame : csb2.hwtail = csb1.hwtail := by rw [← hc, hfull]
    simp only [txCommit]
    rw [if_pos hfull, if_pos hc]
    exact ⟨rfl, rfl, fun hne => absurd hsame hne, fun _ => ⟨rfl, rfl⟩⟩
  · have hdiff : csb2.hwtail ≠ csb1.hwtail := by
      intro hsame
      exact hc (by rw [hsame, hfull])
    simp only [txCommit]
    rw [if_pos hfull, if_neg hc]
    exact ⟨rfl, rfl, fun _ => ⟨rfl, rfl, rfl⟩, fun hsame => absurd hsame hdiff⟩

/-- Witness for tx_full_after_send_doublecheck: a 2-byte packet exactly
fills the two free slots; the re-pull sees tail 3, so the queue restarts
and the hint is cleared. -/
theorem tx_full_after_send_doublecheck_witness :
    (0 : Nat) ≠ (⟨0, 2⟩ : PeerView).hwtail ∧
    (ptnet_start_xmit 3 1 false 0 (mkSkb [5, 5]) 0 0 ⟨0, 2⟩ ⟨0, 3⟩
        false).head = (⟨0, 2⟩ : PeerView).hwtail ∧
    ((ptnet_start_xmit 3 1 false 0 (mkSkb [5, 5]) 0 0 ⟨0, 2⟩ ⟨0, 3⟩
        false).doubleCheckPulls = 1 ∧
      (ptnet_start_xmit 3 1 false 0 (mkSkb [5, 5]) 0 0 ⟨0, 2⟩ ⟨0, 3⟩
        false).queueStopCalls = 1 ∧
      ((⟨0, 3⟩ : PeerView).hwtail ≠ (⟨0, 2⟩ : PeerView).hwtail →
        (ptnet_start_xmit 3 1 false 0 (mkSkb [5, 5]) 0 0 ⟨0, 2⟩ ⟨0, 3⟩
          false).guestNeedTxkickWrites = [1, 0] ∧
        (ptnet_start_xmit 3 1 false 0 (mkSkb [5, 5]) 0 0 ⟨0, 2⟩ ⟨0, 3⟩
          false).queueStartCalls = 1 ∧
        (ptnet_start_xmit 3 1 false 0 (mkSkb [5, 5]) 0 0 ⟨0, 2⟩ ⟨0, 3⟩
          false).queueStoppedFinal = false) ∧
      ((⟨0, 3⟩ : PeerView).hwtail = (⟨0, 2⟩ : PeerView).hwtail →
        (ptnet_start_xmit 3 1 false 0 (mkSkb [5, 5]) 0 0 ⟨0, 2⟩ ⟨0, 3⟩
          false).guestNeedTxkickWrites = [1] ∧
        (ptnet_start_xmit 3 1 false 0 (mkSkb [5, 5]) 0 0 ⟨0, 2⟩ ⟨0, 3⟩
          false).queueStoppedFinal = true)) :=
  ⟨by decide, by decide,
    tx_full_after_send_doublecheck 3 1 false 0 (mkSkb [5, 5]) 0 0 ⟨0, 2⟩
      ⟨0, 3⟩ false (by decide) (by decide)⟩

/-- Claim C10: ptnet_start_xmit returns NETDEV_TX_OK on every path and
frees the submitted skb exactly once, both when the packet is copied into
the ring and when it is dropped because the ring is full; the caller
never sees a busy/retry value.  (0 < bufSize is the real buffer-geometry
precondition: with a zero-sized slot buffer the C copy loop would never
terminate.) -/
theorem tx_always_ok_and_frees_once (lim bufSize : Nat) (vnetHdr : Bool)
    (stale : Nat) (skb : Skb) (head0 cur0 : Nat) (csb1 csb2 : PeerView)
    (hk : Bool) (hB : 0 < bufSize) :
    (ptnet_start_xmit lim bufSize vnetHdr stale skb head0 cur0 csb1 csb2
        hk).ret = NETDEV_TX_OK ∧
    (ptnet_start_xmit lim bufSize vnetHdr stale skb head0 cur0 csb1 csb2
        hk).skbFreed = 1 := by
  by_cases hfull : head0 = csb1.hwtail
  · simp only [ptnet_start_xmit]
    rw [if_pos hfull]
    exact ⟨rfl, rfl⟩
  · have hstep : ptnet_start_xmit lim bufSize vnetHdr stale skb head0 cur0
        csb1 csb2 hk =
        txCommit lim
          ((skb.data :: skb.frags).foldl
            (fun st d => txCopyFrag bufSize lim d st)
            ⟨head0, if vnetHdr then vnetHdrLen else 0, [], []⟩)
          (if vnetHdr then some (buildVnetHdr skb stale) else none)
          csb1.hwtail csb1 csb2 hk skb := by
      simp only [ptnet_start_xmit]
      rw [if_neg hfull]
    rw [hstep]
    exact txCommit_ret_freed _ _ _ _ _ _ _ _

/-- Witness for tx_always_ok_and_frees_once at a concrete transmit. -/
theorem tx_always_ok_and_frees_once_witness :
    0 < 1 ∧
    ((ptnet_start_xmit 3 1 false 0 (mkSkb [7]) 0 0 ⟨0, 2⟩ ⟨0, 2⟩ false).ret =
        NETDEV_TX_OK ∧
      (ptnet_start_xmit 3 1 false 0 (mkSkb [7]) 0 0 ⟨0, 2⟩ ⟨0, 2⟩
        false).skbFreed = 1) :=
  ⟨by decide,
    tx_always_ok_and_frees_once 3 1 false 0 (mkSkb [7]) 0 0 ⟨0, 2⟩ ⟨0, 2⟩
      false (by decide)⟩

/-! ## RX path (ptnet_rx_poll) -/

/-- State threaded through the ptnet_rx_poll drain loop. -/
structure RxState where
  head : Nat
  cur : Nat
  workDone : Nat
  delivered : List RxSkb
  csumDropped : Nat
  allocFailed : Bool
  rxBytes : Nat
  rxPackets : Nat
deriving DecidableEq, Repr

/-- The drain loop of ptnet_rx_poll (lines 421-495): while work_done <
budget and head != tail, consume one slot, advance head/cur, allocate an
skb (on failure break out), account rx statistics, rebuild the metadata
from the header record (freeing the skb and continuing on checksum-set
failure) and deliver the packet.  `remaining` is `budget - work_done`,
which falls by one exactly when work_done rises by one. -/
def rxLoop (lim : Nat) (haveVnetHdr : Bool) (slots : Nat → RxSlot)
    (allocOk : Nat → Bool) (tail : Nat) : Nat → RxState → RxState
  | 0, st => st
  | remaining + 1, st =>
    if st.head = tail then st
    else
      let slot := slots st.head
      let st1 : RxState := { st with head := nmNext st.head lim,
                                     cur := nmNext st.head lim }
      if allocOk st.workDone = false then { st1 with allocFailed := true }
      else
        let len := if haveVnetHdr then slot.len - vnetHdrLen else slot.len
        let st2 : RxState := { st1 with rxBytes := st1.rxBytes + len,
                                        rxPackets := st1.rxPackets + 1 }
        match rxProcessSlot haveVnetHdr slot with
        | none =>
          rxLoop lim haveVnetHdr slots allocOk tail remaining
            { st2 with workDone := st2.workDone + 1,
                       csumDropped := st2.csumDropped + 1 }
        | some skb =>
          rxLoop lim haveVnetHdr slots allocOk tail remaining
            { st2 with workDone := st2.workDone + 1,
                       delivered := st2.delivered ++ [skb] }

/-- Everything observable that one ptnet_rx_poll invocation does. -/
structure RxPollResult where
  workDone : Nat
  delivered : List RxSkb
  csumDropped : Nat
  allocFailed : Bool
  head : Nat
  cur : Nat
  tail : Nat
  hwcur : Nat
  hwtail : Nat
  guestNeedRxkickWrites : List Nat
  napiCompleted : Bool
  napiRescheduled : Bool
  syncTailCalls : Nat
  published : Option (Nat × Nat)
  rxKicks : Nat
  syncFlagsWrites : List Nat
  rxBytes : Nat
  rxPackets : Nat
deriving DecidableEq, Repr

/-- ptnet_rx_poll (lines 397-536).  Pull peer state (tail := csb1.hwtail),
drain up to `budget` slots, and if the budget was not exhausted arm
guest_need_rxkick, complete NAPI, re-pull peer state once (tail :=
csb2.hwtail) and — if completed slots are now visible and the NAPI
re-schedule succeeds — clear the hint and schedule a new poll invocation;
finally, if any work was done, publish cur/head and kick the host if it
asked. -/
def ptnet_rx_poll (lim : Nat) (haveVnetHdr : Bool) (slots : Nat → RxSlot)
    (allocOk : Nat → Bool) (budget : Nat) (head0 cur0 : Nat)
    (csb1 csb2 : PeerView) (hostNeedRxkick : Bool) (napiPrepOk : Bool) :
    RxPollResult :=
  let tail1 := csb1.hwtail
  let st := rxLoop lim haveVnetHdr slots allocOk tail1 budget
    { head := head0, cur := cur0, workDone := 0, delivered := [],
      csumDropped := 0, allocFailed := false, rxBytes := 0, rxPackets := 0 }
  let base : RxPollResult :=
    { workDone := st.workDone, delivered := st.delivered,
      csumDropped := st.csumDropped, allocFailed := st.allocFailed,
      head := st.head, cur := st.cur, tail := tail1,
      hwcur := csb1.hwcur, hwtail := csb1.hwtail,
      guestNeedRxkickWrites := [], napiCompleted := false,
      napiRescheduled := false, syncTailCalls := 1,
      published := if st.workDone ≠ 0 then some (st.cur, st.head) else none,
      rxKicks := if st.workDone ≠ 0 ∧ hostNeedRxkick then 1 else 0,
      syncFlagsWrites :=
        if st.workDone ≠ 0 ∧ hostNeedRxkick then [NAF_FORCE_READ] else [],
      rxBytes := st.rxBytes, rxPackets := st.rxPackets }
  if st.workDone < budget then
    if st.head ≠ csb2.hwtail ∧ napiPrepOk = true then
      { base with tail := csb2.hwtail, hwcur := csb2.hwcur,
                  hwtail := csb2.hwtail,
                  guestNeedRxkickWrites := [1, 0], napiCompleted := true,
                  napiRescheduled := true, syncTailCalls := 2 }
    else
      { base with tail := csb2.hwtail, hwcur := csb2.hwcur,
                  hwtail := csb2.hwtail,
                  guestNeedRxkickWrites := [1], napiCompleted := true,
                  napiRescheduled := false, syncTailCalls := 2 }
  else base

/-! ## RX lemmas -/

/-- `PathTo lim head tail idxs`: idxs is the exact sequence of ring
indices the consumer visits stepping with nm_next from head until it
reaches tail. -/
inductive PathTo (lim : Nat) : Nat → Nat → List Nat → Prop
  | nil (t : Nat) : PathTo lim t t []
  | cons (h t : Nat) (rest : List Nat) (hne : h ≠ t)
      (hp : PathTo lim (nmNext h lim) t rest) : PathTo lim h t (h :: rest)

/-- The drain loop can not do more work than the remaining budget. -/
theorem rxLoop_workDone_le (lim : Nat) (hv : Bool) (slots : Nat → RxSlot)
    (allocOk : Nat → Bool) (tail : Nat) :
    ∀ (r : Nat) (st : RxState),
      (rxLoop lim hv slots allocOk tail r st).workDone ≤ st.workDone + r := by
  intro r
  induction r with
  | zero =>
    intro st
    simp only [rxLoop]
    omega
  | succ r ih =>
    intro st
    simp only [rxLoop]
    split
    · omega
    · split
      · dsimp only
        omega
      · split
        · refine Nat.le_trans (ih _) ?_
          dsimp only
          omega
        · refine Nat.le_trans (ih _) ?_
          dsimp only
          omega

/-- Closed form of the drain loop along the path from head to tail when
every allocation succeeds and every slot decodes successfully: exactly
`min remaining available` slots are consumed, each delivering one packet,
in ring order; head ends on the first unconsumed index (or tail). -/
theorem rxLoop_path (lim : Nat) (hv : Bool) (slots : Nat → RxSlot)
    (allocOk : Nat → Bool) (tail : Nat) (f : Nat → RxSkb)
    (halloc : ∀ j, allocOk j = true) :
    ∀ (idxs : List Nat) (head : Nat), PathTo lim head tail idxs →
      (∀ i ∈ idxs, rxProcessSlot hv (slots i) = some (f i)) →
      ∀ (r : Nat) (st : RxState), st.head = head →
        ((rxLoop lim hv slots allocOk tail r st).delivered =
          st.delivered ++ (idxs.take r).map f) ∧
        ((rxLoop lim hv slots allocOk tail r st).workDone =
          st.workDone + min r idxs.length) ∧
        ((rxLoop lim hv slots allocOk tail r st).head =
          (idxs.drop r).headD tail) := by
  intro idxs head hpath
  induction hpath with
  | nil t =>
    intro _ r st hst
    cases r with
    | zero => simp [rxLoop, hst]
    | succ r => simp [rxLoop, hst]
  | cons h t rest hne hp ih =>
    intro hproc r st hst
    cases r with
    | zero => simp [rxLoop, hst]
    | succ r =>
      have hne2 : ¬ st.head = t := by rw [hst]; exact hne
      have hps : rxProcessSlot hv (slots st.head) = some (f h) := by
        rw [hst]
        exact hproc h (by simp)
      simp only [rxLoop, if_neg hne2, halloc st.workDone, hps]
      rw [if_neg (by decide : ¬ (true = false))]
      obtain ⟨ihd, ihw, ihh⟩ := ih (fun i hi => hproc i (by simp [hi])) r
        { st with head := nmNext st.head lim,
                  cur := nmNext st.head lim,
                  workDone := st.workDone + 1,
                  delivered := st.delivered ++ [f h],
                  rxBytes := st.rxBytes +
                    (if hv then (slots st.head).len - vnetHdrLen
                     else (slots st.head).len),
                  rxPackets := st.rxPackets + 1 }
        (by simp [hst])
      refine ⟨?_, ?_, ?_⟩
      · rw [ihd]
        simp [hst, List.append_assoc]
      · rw [ihw]
        dsimp only
        simp only [List.length_cons]
        omega
      · rw [ihh]
        rfl

/-- The drain loop's delivered list is returned unchanged by the
post-processing of ptnet_rx_poll. -/
theorem rxPoll_delivered_eq (lim : Nat) (hv : Bool) (slots : Nat → RxSlot)
    (allocOk : Nat → Bool) (budget head0 cur0 : Nat) (csb1 csb2 : PeerView)
    (hk np : Bool) :
    (ptnet_rx_poll lim hv slots allocOk budget head0 cur0 csb1 csb2 hk
        np).delivered =
      (rxLoop lim hv slots allocOk csb1.hwtail budget
        { head := head0, cur := cur0, workDone := 0, delivered := [],
          csumDropped := 0, allocFailed := false, rxBytes := 0,
          rxPackets := 0 }).delivered := by
  simp only [ptnet_rx_poll]
  split
  · split <;> rfl
  · rfl

/-- The drain loop's work count is returned unchanged by the
post-processing of ptnet_rx_poll. -/
theorem rxPoll_workDone_eq (lim : Nat) (hv : Bool) (slots : Nat → RxSlot)
    (allocOk : Nat → Bool) (budget head0 cur0 : Nat) (csb1 csb2 : PeerView)
    (hk np : Bool) :
    (ptnet_rx_poll lim hv slots allocOk budget head0 cur0 csb1 csb2 hk
        np).workDone =
      (rxLoop lim hv slots allocOk csb1.hwtail budget
        { head := head0, cur := cur0, workDone := 0, delivered := [],
          csumDropped := 0, allocFailed := false, rxBytes := 0,
          rxPackets := 0 }).workDone := by
  simp only [ptnet_rx_poll]
  split
  · split <;> rfl
  · rfl

/-! ## RX claims -/

/-- An all-zero header record (no checksum flags, no segmentation). -/
def zeroVnetHdr : VirtioNetHdr := ⟨0, 0, 0, 0, 0, 0, 0⟩

/-- Two consecutive completed RX slots forming one logical packet: the
first is flagged NS_MOREFRAG ("more fragments follow"), the second closes
the sequence. -/
def c1Slots : Nat → RxSlot
  | 0 => { len := 15, flags := NS_MOREFRAG, hdr := zeroVnetHdr, bytes := [1, 2, 3] }
  | 1 => { len := 14, flags := 0, hdr := zeroVnetHdr, bytes := [4, 5] }
  | _ => { len := 12, flags := 0, hdr := zeroVnetHdr, bytes := [] }

/-- Claim C1, counterexample: the RX drain loop does NOT reassemble a
packet spanning two slots.  With slot 0 flagged NS_MOREFRAG (payload
[1,2,3]) and slot 1 unflagged (payload [4,5]), ptnet_rx_poll delivers TWO
packets — one per slot, never consulting the flag — and strips a header
record from BOTH slots, instead of delivering the single concatenated
packet [1,2,3,4,5] with the header taken only from the first slot. -/
theorem rx_multislot_not_reassembled :
    (ptnet_rx_poll 3 true c1Slots (fun _ => true) 8 0 0 ⟨0, 2⟩ ⟨0, 2⟩ false
        true).delivered.map RxSkb.payload = [[1, 2, 3], [4, 5]] ∧
    (ptnet_rx_poll 3 true c1Slots (fun _ => true) 8 0 0 ⟨0, 2⟩ ⟨0, 2⟩ false
        true).workDone = 2 ∧
    (c1Slots 0).flags = NS_MOREFRAG ∧ (c1Slots 1).flags = 0 ∧
    (ptnet_rx_poll 3 true c1Slots (fun _ => true) 8 0 0 ⟨0, 2⟩ ⟨0, 2⟩ false
        true).delivered.map RxSkb.payload ≠ [[1, 2, 3, 4, 5]] := by
  decide

/-- Claim C1 (amended): the RX drain loop performs no multi-slot
reassembly: along the completed-slot path from head to tail, with every
allocation succeeding and every slot decoding successfully, it delivers
exactly one packet per slot in ring order — regardless of any
NS_MOREFRAG flags — and reads (and strips) a header record from every
slot, not only the first of a flagged sequence. -/
theorem rx_per_slot_delivery (lim : Nat) (hv : Bool) (slots : Nat → RxSlot)
    (allocOk : Nat → Bool) (budget head0 cur0 : Nat) (csb1 csb2 : PeerView)
    (hk np : Bool) (idxs : List Nat) (f : Nat → RxSkb)
    (hpath : PathTo lim head0 csb1.hwtail idxs)
    (halloc : ∀ j, allocOk j = true)
    (hproc : ∀ i ∈ idxs, rxProcessSlot hv (slots i) = some (f i))
    (hbudget : idxs.length ≤ budget) :
    (ptnet_rx_poll lim hv slots allocOk budget head0 cur0 csb1 csb2 hk
        np).delivered = idxs.map f ∧
    (ptnet_rx_poll lim hv slots allocOk budget head0 cur0 csb1 csb2 hk
        np).workDone = idxs.length := by
  obtain ⟨hD, hW, _⟩ := rxLoop_path lim hv slots allocOk csb1.hwtail f halloc
    idxs head0 hpath hproc budget
    { head := head0, cur := cur0, workDone := 0, delivered := [],
      csumDropped := 0, allocFailed := false, rxBytes := 0, rxPackets := 0 }
    rfl
  constructor
  · rw [rxPoll_delivered_eq, hD, List.take_of_length_le hbudget]
    rfl
  · rw [rxPoll_workDone_eq, hW]
    dsimp only
    omega

/-- Witness for rx_per_slot_delivery on the two-slot configuration. -/
theorem rx_per_slot_delivery_witness :
    PathTo 3 0 (⟨0, 2⟩ : PeerView).hwtail [0, 1] ∧
    (∀ j : Nat, (fun _ : Nat => true) j = true) ∧
    (∀ i ∈ [0, 1], rxProcessSlot true (c1Slots i) =
      some (if i = 0 then ⟨[1, 2, 3], 3, 0, 0, 0, 0, 0⟩
            else ⟨[4, 5], 2, 0, 0, 0, 0, 0⟩)) ∧
    ([0, 1] : List Nat).length ≤ 8 ∧
    ((ptnet_rx_poll 3 true c1Slots (fun _ => true) 8 0 0 ⟨0, 2⟩ ⟨0, 2⟩ false
        true).delivered =
      ([0, 1] : List Nat).map
        (fun i => if i = 0 then ⟨[1, 2, 3], 3, 0, 0, 0, 0, 0⟩
                  else ⟨[4, 5], 2, 0, 0, 0, 0, 0⟩) ∧
      (ptnet_rx_poll 3 true c1Slots (fun _ => true) 8 0 0 ⟨0, 2⟩ ⟨0, 2⟩ false
        true).workDone = ([0, 1] : List Nat).length) :=
  ⟨PathTo.cons 0 2 [1] (by decide) (PathTo.cons 1 2 [] (by decide) (PathTo.nil 2)),
   fun _ => rfl, by decide, by decide,
   rx_per_slot_delivery 3 true c1Slots (fun _ => true) 8 0 0 ⟨0, 2⟩ ⟨0, 2⟩
     false true [0, 1]
     (fun i => if i = 0 then ⟨[1, 2, 3], 3, 0, 0, 0, 0, 0⟩
               else ⟨[4, 5], 2, 0, 0, 0, 0, 0⟩)
     (PathTo.cons 0 2 [1] (by decide) (PathTo.cons 1 2 [] (by decide) (PathTo.nil 2)))
     (fun _ => rfl) (by decide) (by decide)⟩

/-- Claim C6, counterexample: when new completed slots become visible in
the double-check window, ptnet_rx_poll does NOT resume draining within
the same invocation — it re-schedules itself.  Budget 2, one completed
slot at the entry pull (tail 1), a second one visible at the re-pull
(tail 2): only ONE packet is delivered and work_done stays 1 even though
budget remained and new work was visible (head 1 ≠ tail 2 at return);
the invocation merely clears the hint and schedules a new poll. -/
theorem rx_doublecheck_reschedules_not_resumes :
    (ptnet_rx_poll 3 true c1Slots (fun _ => true) 2 0 0 ⟨0, 1⟩ ⟨0, 2⟩ false
        true).delivered.map RxSkb.payload = [[1, 2, 3]] ∧
    (ptnet_rx_poll 3 true c1Slots (fun _ => true) 2 0 0 ⟨0, 1⟩ ⟨0, 2⟩ false
        true).workDone = 1 ∧
    (ptnet_rx_poll 3 true c1Slots (fun _ => true) 2 0 0 ⟨0, 1⟩ ⟨0, 2⟩ false
        true).napiRescheduled = true ∧
    (ptnet_rx_poll 3 true c1Slots (fun _ => true) 2 0 0 ⟨0, 1⟩ ⟨0, 2⟩ false
        true).guestNeedRxkickWrites = [1, 0] ∧
    (ptnet_rx_poll 3 true c1Slots (fun _ => true) 2 0 0 ⟨0, 1⟩ ⟨0, 2⟩ false
        true).head = 1 ∧
    (ptnet_rx_poll 3 true c1Slots (fun _ => true) 2 0 0 ⟨0, 1⟩ ⟨0, 2⟩ false
        true).tail = 2 ∧
    (ptnet_rx_poll 3 true c1Slots (fun _ => true) 2 0 0 ⟨0, 1⟩ ⟨0, 2⟩ false
        true).workDone ≠ 2 := by
  decide

/-- Claim C6 (amended): ptnet_rx_poll processes at most `budget` slots
per invocation; whenever the drain loop exits with work remaining under
budget, it writes 1 to guest_need_rxkick, completes NAPI, and pulls peer
state exactly once more; if that re-pull makes new completed slots
visible it writes 0 to guest_need_rxkick and re-schedules the poll — the
draining then resumes in the next invocation without waiting for a new
interrupt, not within the same invocation. -/
theorem rx_budget_and_doublecheck (lim : Nat) (hv : Bool)
    (slots : Nat → RxSlot) (allocOk : Nat → Bool)
    (budget head0 cur0 : Nat) (csb1 csb2 : PeerView) (hk : Bool)
    (idxs : List Nat) (f : Nat → RxSkb)
    (hpath : PathTo lim head0 csb1.hwtail idxs)
    (halloc : ∀ j, allocOk j = true)
    (hproc : ∀ i ∈ idxs, rxProcessSlot hv (slots i) = some (f i))
    (hlt : idxs.length < budget) :
    (∀ (slots2 : Nat → RxSlot) (alloc2 : Nat → Bool) (b h0 c0 : Nat)
        (p1 p2 : PeerView) (k2 np2 : Bool),
      (ptnet_rx_poll lim hv slots2 alloc2 b h0 c0 p1 p2 k2 np2).workDone ≤ b) ∧
    (ptnet_rx_poll lim hv slots allocOk budget head0 cur0 csb1 csb2 hk
        true).workDone = idxs.length ∧
    (ptnet_rx_poll lim hv slots allocOk budget head0 cur0 csb1 csb2 hk
        true).syncTailCalls = 2 ∧
    (ptnet_rx_poll lim hv slots allocOk budget head0 cur0 csb1 csb2 hk
        true).napiCompleted = true ∧
    (csb2.hwtail = csb1.hwtail →
      (ptnet_rx_poll lim hv slots allocOk budget head0 cur0 csb1 csb2 hk
          true).guestNeedRxkickWrites = [1] ∧
      (ptnet_rx_poll lim hv slots allocOk budget head0 cur0 csb1 csb2 hk
          true).napiRescheduled = false) ∧
    (csb2.hwtail ≠ csb1.hwtail →
      (ptnet_rx_poll lim hv slots allocOk budget head0 cur0 csb1 csb2 hk
          true).guestNeedRxkickWrites = [1, 0] ∧
      (ptnet_rx_poll lim hv slots allocOk budget head0 cur0 csb1 csb2 hk
          true).napiRescheduled = true) := by
  obtain ⟨hD, hW, hH⟩ := rxLoop_path lim hv slots allocOk csb1.hwtail f halloc
    idxs head0 hpath hproc budget
    { head := head0, cur := cur0, workDone := 0, delivered := [],
      csumDropped := 0, allocFailed := false, rxBytes := 0, rxPackets := 0 }
    rfl
  have hw2 : (rxLoop lim hv slots allocOk csb1.hwtail budget
      { head := head0, cur := cur0, workDone := 0, delivered := [],
        csumDropped := 0, allocFailed := false, rxBytes := 0,
        rxPackets := 0 }).workDone = idxs.length := by
    rw [hW]
    dsimp only
    omega
  have hh2 : (rxLoop lim hv slots allocOk csb1.hwtail budget
      { head := head0, cur := cur0, workDone := 0, delivered := [],
        csumDropped := 0, allocFailed := false, rxBytes := 0,
        rxPackets := 0 }).head = csb1.hwtail := by
    rw [hH, List.drop_eq_nil_of_le (Nat.le_of_lt hlt)]
    rfl
  have hwlt : (rxLoop lim hv slots allocOk csb1.hwtail budget
      { head := head0, cur := cur0, workDone := 0, delivered := [],
        csumDropped := 0, allocFailed := false, rxBytes := 0,
        rxPackets := 0 }).workDone < budget := by
    rw [hw2]
    exact hlt
  refine ⟨?_, ?_, ?_, ?_, ?_, ?_⟩
  · intro slots2 alloc2 b h0 c0 p1 p2 k2 np2
    rw [rxPoll_workDone_eq]
    have h1 := rxLoop_workDone_le lim hv slots2 alloc2 p1.hwtail b
      { head := h0, cur := c0, workDone := 0, delivered := [],
        csumDropped := 0, allocFailed := false, rxBytes := 0,
        rxPackets := 0 }
    simpa using h1
  · rw [rxPoll_workDone_eq]
    exact hw2
  · simp only [ptnet_rx_poll]
    rw [if_pos hwlt]
    split <;> rfl
  · simp only [ptnet_rx_poll]
    rw [if_pos hwlt]
    split <;> rfl
  · intro hcc
    have hcond : ¬ ((rxLoop lim hv slots allocOk csb1.hwtail budget
        { head := head0, cur := cur0, workDone := 0, delivered := [],
          csumDropped := 0, allocFailed := false, rxBytes := 0,
          rxPackets := 0 }).head ≠ csb2.hwtail ∧ True) := by
      intro hpair
      exact hpair.1 (by rw [hh2, hcc])
    constructor <;>
      (simp only [ptnet_rx_poll]; rw [if_pos hwlt, if_neg hcond])
  · intro hcc
    have hcond : (rxLoop lim hv slots allocOk csb1.hwtail budget
        { head := head0, cur := cur0, workDone := 0, delivered := [],
          csumDropped := 0, allocFailed := false, rxBytes := 0,
          rxPackets := 0 }).head ≠ csb2.hwtail ∧ True := by
      refine ⟨?_, trivial⟩
      rw [hh2]
      exact fun h => hcc h.symm
    constructor <;>
      (simp only [ptnet_rx_poll]; rw [if_pos hwlt, if_pos hcond])

/-- Witness for rx_budget_and_doublecheck: one completed slot under a
budget of two, with a second slot appearing at the re-pull. -/
theorem rx_budget_and_doublecheck_witness :
    ([0] : List Nat).length < 2 ∧
    (ptnet_rx_poll 3 true c1Slots (fun _ => true) 2 0 0 ⟨0, 1⟩ ⟨0, 2⟩ false
        true).workDone = 1 ∧
    (ptnet_rx_poll 3 true c1Slots (fun _ => true) 2 0 0 ⟨0, 1⟩ ⟨0, 2⟩ false
        true).syncTailCalls = 2 ∧
    (ptnet_rx_poll 3 true c1Slots (fun _ => true) 2 0 0 ⟨0, 1⟩ ⟨0, 2⟩ false
        true).napiCompleted = true ∧
    (ptnet_rx_poll 3 true c1Slots (fun _ => true) 2 0 0 ⟨0, 1⟩ ⟨0, 2⟩ false
        true).guestNeedRxkickWrites = [1, 0] ∧
    (ptnet_rx_poll 3 true c1Slots (fun _ => true) 2 0 0 ⟨0, 1⟩ ⟨0, 2⟩ false
        true).napiRescheduled = true := by
  have H := rx_budget_and_doublecheck 3 true c1Slots (fun _ => true) 2 0 0
    ⟨0, 1⟩ ⟨0, 2⟩ false [0]
    (fun _ => ⟨[1, 2, 3], 3, 0, 0, 0, 0, 0⟩)
    (PathTo.cons 0 1 [] (by decide) (PathTo.nil 1))
    (fun _ => rfl) (by decide) (by decide)
  exact ⟨by decide, H.2.1, H.2.2.1, H.2.2.2.1,
    (H.2.2.2.2.2 (by decide)).1, (H.2.2.2.2.2 (by decide)).2⟩

/-! ## Peer-state pull (ptnet_sync_tail) -/

/-- The guest-side view of one kring together with its user-visible
netmap ring cursors: ring->head, ring->cur, ring->tail and the kring's
nr_hwcur / nr_hwtail / rtail. -/
structure KringState where
  ringHead : Nat
  ringCur : Nat
  ringTail : Nat
  nrHwcur : Nat
  nrHwtail : Nat
  rtail : Nat
deriving DecidableEq, Repr

/-- Modelled from the spec: ptnetmap_guest_read_kring_csb (declared in
netmap_virt.h, not part of src/) — §4.2 pull_peer_state "copies the
peer's published hwcur/hwtail into the ring's hwcur/hwtail". -/
def ptnetmap_guest_read_kring_csb (pt : PeerView) (k : KringState) : KringState :=
  { k with nrHwcur := pt.hwcur, nrHwtail := pt.hwtail }

/-- ptnet_sync_tail (lines 110-120): pull hwcur/hwtail from the CSB, then
publish forward progress locally: ring->tail = rtail = nr_hwtail. -/
def ptnet_sync_tail (pt : PeerView) (k : KringState) : KringState :=
  let k1 := ptnetmap_guest_read_kring_csb pt k
  { k1 with ringTail := k1.nrHwtail, rtail := k1.nrHwtail }

/-- Claim C9: the peer-state pull is idempotent on the local cursors: if
the peer's published hwcur/hwtail have not changed since a previous pull
(k is the result of a pull of the same PeerView), pulling again leaves
head, cur, tail, hwcur and hwtail all unchanged. -/
theorem sync_tail_idempotent (pt : PeerView) (k0 k : KringState)
    (hprev : ptnet_sync_tail pt k0 = k) :
    ptnet_sync_tail pt k = k ∧
    (ptnet_sync_tail pt k).ringHead = k.ringHead ∧
    (ptnet_sync_tail pt k).ringCur = k.ringCur := by
  subst hprev
  exact ⟨rfl, rfl, rfl⟩

/-- Witness for sync_tail_idempotent at a concrete pull. -/
theorem sync_tail_idempotent_witness :
    ptnet_sync_tail ⟨4, 7⟩ ⟨1, 2, 3, 0, 0, 0⟩ = ⟨1, 2, 7, 4, 7, 7⟩ ∧
    (ptnet_sync_tail ⟨4, 7⟩ ⟨1, 2, 7, 4, 7, 7⟩ = ⟨1, 2, 7, 4, 7, 7⟩ ∧
      (ptnet_sync_tail ⟨4, 7⟩ ⟨1, 2, 7, 4, 7, 7⟩).ringHead = 1 ∧
      (ptnet_sync_tail ⟨4, 7⟩ ⟨1, 2, 7, 4, 7, 7⟩).ringCur = 2) :=
  ⟨by decide, sync_tail_idempotent ⟨4, 7⟩ ⟨1, 2, 3, 0, 0, 0⟩ ⟨1, 2, 7, 4, 7, 7⟩
    (by decide)⟩

/-! ## Registration (ptnet_nm_register_common) -/

/-- One netmap kring as the registration path sees it.  `pendingOn` /
`pendingOff` record the results of the nm_kring_pending_on/off helpers
(netmap_kern.h): whether the kring is scheduled to switch into or out of
netmap mode. -/
structure NmKring where
  pendingOn : Bool
  pendingOff : Bool
  rhead : Nat
  rcur : Nat
  ringHead : Nat
  ringCur : Nat
  ringTail : Nat
  nrHwcur : Nat
  nrHwtail : Nat
  rtail : Nat
  nrMode : Nat
deriving DecidableEq, Repr

/-- One pt_ring sub-block of the CSB as published by the host after
REGIF. -/
structure PtRingCsb where
  head : Nat
  cur : Nat
  hwcur : Nat
  hwtail : Nat
deriving DecidableEq, Repr

/-- ptnet_nm_register_common lines 830-848: seed the local kring cursors
from the CSB values the backend populated (only for krings pending
switch-on). -/
def seedKringFromCsb (pt : PtRingCsb) (k : NmKring) : NmKring :=
  if k.pendingOn then
    { k with rhead := pt.head, ringHead := pt.head,
             rcur := pt.cur, ringCur := pt.cur,
             nrHwcur := pt.hwcur,
             nrHwtail := pt.hwtail, rtail := pt.hwtail,
             ringTail := pt.hwtail,
             nrMode := NKR_NETMAP_ON }
  else k

/-- ptnet_nm_register_common lines 865-875: mark krings pending
switch-off as off. -/
def switchOffPending (k : NmKring) : NmKring :=
  if k.pendingOff then { k with nrMode := NKR_NETMAP_OFF } else k

/-- Everything observable that one ptnet_nm_register_common call does:
return value, the PTCTL opcodes issued, the kring states, and the
adapter flags (nm_set_native_flags / nm_clear_native_flags from
netmap_kern.h are abbreviated to their NAF_NETMAP_ON bit effect). -/
structure RegResult where
  ret : Nat
  ptctlOps : List Nat
  txKrings : List NmKring
  rxKrings : List NmKring
  naFlags : Nat
deriving DecidableEq, Repr

/-- ptnet_nm_register_common (lines 800-881).  `none` models the
BUG_ON(!native) crash on the (unreachable, NR_EXCLUSIVE-protected)
non-native re-registration path.  With registrations already active
(active_fds > 0) the call returns 0 immediately: no PTCTL operation, no
kring change, no flag change.  Otherwise onoff selects REGIF (seeding
kring cursors from the CSB on success) or UNREGIF. -/
def ptnet_nm_register_common (activeFds : Nat) (native : Bool) (onoff : Bool)
    (regifRet unregifRet : Nat) (csbTx csbRx : PtRingCsb)
    (txKrings rxKrings : List NmKring) (naFlags : Nat) : Option RegResult :=
  if 0 < activeFds then
    if native = false then none
    else some ⟨0, [], txKrings, rxKrings, naFlags⟩
  else if onoff then
    if regifRet ≠ 0 then
      some ⟨regifRet, [NET_PARAVIRT_PTCTL_REGIF], txKrings, rxKrings, naFlags⟩
    else
      some ⟨0, [NET_PARAVIRT_PTCTL_REGIF],
        txKrings.map (seedKringFromCsb csbTx),
        rxKrings.map (seedKringFromCsb csbRx),
        naFlags ||| NAF_NETMAP_ON⟩
  else
    some ⟨unregifRet, [NET_PARAVIRT_PTCTL_UNREGIF],
      txKrings.map switchOffPending, rxKrings.map switchOffPending,
      if native then naFlags - (naFlags &&& NAF_NETMAP_ON)
      else naFlags &&& NAF_NETMAP_ON⟩

/-- Claim C8: with a registration already active (active_fds > 0), a
second registration request in the same (native) mode — the only mode in
which this situation is reachable, since netif-mode registration holds
NR_EXCLUSIVE — returns success (0) without issuing any PTCTL control
operation and without touching any ring cursor or adapter flag. -/
theorem register_repeat_is_noop_success (activeFds : Nat) (native onoff : Bool)
    (regifRet unregifRet : Nat) (csbTx csbRx : PtRingCsb)
    (txKrings rxKrings : List NmKring) (naFlags : Nat)
    (hactive : 0 < activeFds) (hnative : native = true) :
    ptnet_nm_register_common activeFds native onoff regifRet unregifRet
        csbTx csbRx txKrings rxKrings naFlags =
      some ⟨0, [], txKrings, rxKrings, naFlags⟩ := by
  subst hnative
  simp only [ptnet_nm_register_common, if_pos hactive]
  rfl

/-- Witness for register_repeat_is_noop_success with one active fd. -/
theorem register_repeat_is_noop_success_witness :
    0 < 1 ∧ (true : Bool) = true ∧
    ptnet_nm_register_common 1 true true 0 0 ⟨5, 6, 7, 8⟩ ⟨1, 2, 3, 4⟩
        [⟨true, false, 0, 0, 0, 0, 0, 0, 0, 0, 0⟩] [] 9 =
      some ⟨0, [], [⟨true, false, 0, 0, 0, 0, 0, 0, 0, 0, 0⟩], [], 9⟩ :=
  ⟨by decide, rfl,
    register_repeat_is_noop_success 1 true true 0 0 ⟨5, 6, 7, 8⟩ ⟨1, 2, 3, 4⟩
      [⟨true, false, 0, 0, 0, 0, 0, 0, 0, 0, 0⟩] [] 9 (by decide) rfl⟩
